import Mathlib

/-!
  # freshsales-mcp: stateless OAuth 2.0 PKCE core, embedded and checked

  Shallow embedding of the OAuth core of the freshsales-mcp repository:

  * `src/api/oauth-utils.js` — HMAC-SHA256 Signer/Verifier (`sign`, `verify`,
    `createAuthCode`, `verifyAuthCode`, `createAccessToken`,
    `verifyAccessToken`);
  * `src/unnamed/part_002` — the authorization endpoint handler;
  * `src/unnamed/part_003` — the token-exchange endpoint handler;
  * `src/unnamed/part_005` — the HTTP MCP resource handler.

  Bytes are `Nat` in the range 0..255; 32-bit words are `Nat` reduced modulo
  4294967296 wherever overflow matters. SHA-256, HMAC-SHA256, hex digests and
  unpadded base64url are implemented executably so that concrete witnesses
  (including the RFC 7636 PKCE test vector) evaluate inside the kernel.
-/

set_option maxRecDepth 8192

namespace FreshsalesMcp

/-- Reduce a word modulo 2^32, the implicit arithmetic of 32-bit hashing. -/
def mask32 (n : Nat) : Nat := n % 4294967296

/-- Right rotation of a 32-bit word by `k` positions. -/
def rotr32 (k x : Nat) : Nat :=
  mask32 ((x >>> k) ||| (x <<< (32 - k)))

/-- Bitwise complement of a 32-bit word. -/
def not32 (x : Nat) : Nat := 0xffffffff ^^^ x

/-- SHA-256 choice function. -/
def ch32 (x y z : Nat) : Nat := (x &&& y) ^^^ (not32 x &&& z)

/-- SHA-256 majority function. -/
def maj32 (x y z : Nat) : Nat := (x &&& y) ^^^ (x &&& z) ^^^ (y &&& z)

/-- SHA-256 big sigma 0. -/
def bsig0 (x : Nat) : Nat := rotr32 2 x ^^^ rotr32 13 x ^^^ rotr32 22 x

/-- SHA-256 big sigma 1. -/
def bsig1 (x : Nat) : Nat := rotr32 6 x ^^^ rotr32 11 x ^^^ rotr32 25 x

/-- SHA-256 small sigma 0. -/
def ssig0 (x : Nat) : Nat := rotr32 7 x ^^^ rotr32 18 x ^^^ (x >>> 3)

/-- SHA-256 small sigma 1. -/
def ssig1 (x : Nat) : Nat := rotr32 17 x ^^^ rotr32 19 x ^^^ (x >>> 10)

/-- The 64 SHA-256 round constants of FIPS 180-4, in decimal. -/
def K256 : List Nat :=
  [1116352408, 1899447441, 3049323471, 3921009573,
   961987163, 1508970993, 2453635748, 2870763221,
   3624381080, 310598401, 607225278, 1426881987,
   1925078388, 2162078206, 2614888103, 3248222580,
   3835390401, 4022224774, 264347078, 604807628,
   770255983, 1249150122, 1555081692, 1996064986,
   2554220882, 2821834349, 2952996808, 3210313671,
   3336571891, 3584528711, 113926993, 338241895,
   666307205, 773529912, 1294757372, 1396182291,
   1695183700, 1986661051, 2177026350, 2456956037,
   2730485921, 2820302411, 3259730800, 3345764771,
   3516065817, 3600352804, 4094571909, 275423344,
   430227734, 506948616, 659060556, 883997877,
   958139571, 1322822218, 1537002063, 1747873779,
   1955562222, 2024104815, 2227730452, 2361852424,
   2428436474, 2756734187, 3204031479, 3329325298]

/-- The SHA-256 initial hash state of FIPS 180-4, in decimal. -/
def H256 : List Nat :=
  [1779033703, 3144134277, 1013904242, 2773480762,
   1359893119, 2600822924, 528734635, 1541459225]

/-- Pack big-endian groups of four bytes into 32-bit words. -/
def toWords : List Nat → List Nat
  | b0 :: b1 :: b2 :: b3 :: rest =>
      (b0 * 16777216 + b1 * 65536 + b2 * 256 + b3) :: toWords rest
  | _ => []

/-- Extend a 16-word block to the 64-word message schedule (`fuel` = 48). -/
def extendSchedule : Nat → List Nat → List Nat
  | 0, ws => ws
  | fuel + 1, ws =>
      let n := ws.length
      let w := mask32 (ssig1 (ws.getD (n - 2) 0) + ws.getD (n - 7) 0 +
                       ssig0 (ws.getD (n - 15) 0) + ws.getD (n - 16) 0)
      extendSchedule fuel (ws ++ [w])

/-- One SHA-256 round on the eight-word working state. -/
def round256 (st : List Nat) (kw : Nat × Nat) : List Nat :=
  match st with
  | [a, b, c, d, e, f, g, h] =>
      let t1 := mask32 (h + bsig1 e + ch32 e f g + kw.1 + kw.2)
      let t2 := mask32 (bsig0 a + maj32 a b c)
      [mask32 (t1 + t2), a, b, c, mask32 (d + t1), e, f, g]
  | other => other

/-- Compress one 64-byte block into the running hash state. -/
def compress256 (st : List Nat) (block : List Nat) : List Nat :=
  let ws := extendSchedule 48 (toWords block)
  let fin := (K256.zip ws).foldl round256 st
  List.zipWith (fun x y => mask32 (x + y)) st fin

/-- Split the padded message into 64-byte blocks (`fuel` bounds recursion). -/
def blocks64 : Nat → List Nat → List (List Nat)
  | 0, _ => []
  | _, [] => []
  | fuel + 1, l => l.take 64 :: blocks64 fuel (l.drop 64)

/-- The 8-byte big-endian encoding of the bit length of the message. -/
def lenBytes (bits : Nat) : List Nat :=
  [bits >>> 56 % 256, bits >>> 48 % 256, bits >>> 40 % 256, bits >>> 32 % 256,
   bits >>> 24 % 256, bits >>> 16 % 256, bits >>> 8 % 256, bits % 256]

/-- SHA-256 padding: append 0x80, zero-fill to 56 mod 64, append bit length. -/
def pad256 (msg : List Nat) : List Nat :=
  let zeros := (120 - (msg.length + 1) % 64) % 64
  msg ++ [0x80] ++ List.replicate zeros 0 ++ lenBytes (msg.length * 8)

/-- Unpack a 32-bit word into four big-endian bytes. -/
def wordBytes (w : Nat) : List Nat :=
  [w / 16777216 % 256, w / 65536 % 256, w / 256 % 256, w % 256]

/-- SHA-256 of a byte list, as a 32-byte list.  Models
Node `crypto.createHash("sha256")`. -/
def sha256 (msg : List Nat) : List Nat :=
  let padded := pad256 msg
  let final := (blocks64 (padded.length) padded).foldl compress256 H256
  (final.map wordBytes).flatten

/-- Lowercase hexadecimal digit for a value below 16. -/
def hexDigit (n : Nat) : Char :=
  "0123456789abcdef".toList.getD n 'x'

/-- Lowercase hex rendering of a byte list.  Models Node digest("hex"). -/
def hexDigest (bytes : List Nat) : String :=
  String.mk ((bytes.map (fun b => [hexDigit (b / 16), hexDigit (b % 16)])).flatten)

/-- The base64url alphabet character for a value below 64. -/
def b64Char (n : Nat) : Char :=
  "ABCDEFGHIJKLMNOPQRSTUVWXYZabcdefghijklmnopqrstuvwxyz0123456789-_".toList.getD n 'x'

/-- Encode bytes in base64url without padding (Node digest("base64url")). -/
def b64urlChars : List Nat → List Char
  | [] => []
  | [b1] => [b64Char (b1 / 4), b64Char (b1 % 4 * 16)]
  | [b1, b2] => [b64Char (b1 / 4), b64Char (b1 % 4 * 16 + b2 / 16), b64Char (b2 % 16 * 4)]
  | b1 :: b2 :: b3 :: rest =>
      b64Char (b1 / 4) :: b64Char (b1 % 4 * 16 + b2 / 16) ::
      b64Char (b2 % 16 * 4 + b3 / 64) :: b64Char (b3 % 64) :: b64urlChars rest

/-- Unpadded base64url of a byte list, as a string. -/
def base64urlNoPad (bytes : List Nat) : String :=
  String.mk (b64urlChars bytes)

/-- UTF-8 encoding of one Unicode code point. -/
def utf8EncodeChar (c : Nat) : List Nat :=
  if c < 0x80 then [c]
  else if c < 0x800 then [0xc0 + c / 64, 0x80 + c % 64]
  else if c < 0x10000 then [0xe0 + c / 4096, 0x80 + c / 64 % 64, 0x80 + c % 64]
  else [0xf0 + c / 262144, 0x80 + c / 4096 % 64, 0x80 + c / 64 % 64, 0x80 + c % 64]

/-- UTF-8 bytes of a string, the input representation Node `crypto` hashes. -/
def utf8Bytes (s : String) : List Nat :=
  (s.toList.map (fun c => utf8EncodeChar c.toNat)).flatten

/-- HMAC-SHA256 of a message under a key of at most 64 bytes, hex digest.
Models `crypto.createHmac("sha256", key).update(msg).digest("hex")` in
src/api/oauth-utils.js, lines 10 to 13 and 24 to 27. -/
def hmacHex (key msg : List Nat) : String :=
  let k64 := key ++ List.replicate (64 - key.length) 0
  let ipad := k64.map (fun b => b ^^^ 0x36)
  let opad := k64.map (fun b => b ^^^ 0x5c)
  hexDigest (sha256 (opad ++ sha256 (ipad ++ msg)))

/-!
  ## Data model: Payload, envelope, Token (src/api/oauth-utils.js)
-/

/-- A token payload, the object literal signed by src/api/oauth-utils.js.
Field order matches the insertion order of the source object literals
(lines 47 to 54 for code payloads, lines 63 to 67 for access payloads):
`t`, `client_id`, `code_challenge`, `code_challenge_method`, `redirect_uri`,
`exp`.  Optional fields model properties that are absent (JS undefined is
omitted by JSON.stringify).  `exp` is an epoch-millisecond Nat; the JS
truthiness test on it distinguishes 0 (falsy) from other numbers. -/
structure Payload where
  t : String
  client_id : String
  code_challenge : Option String
  code_challenge_method : Option String
  redirect_uri : Option String
  exp : Option Nat
deriving DecidableEq, Repr

/-- JSON string escaping as in JSON.stringify: quote, backslash, and the
control characters below 0x20. -/
def jsonEscapeChar (c : Char) : List Char :=
  if c = '"' then ['\\', '"']
  else if c = '\\' then ['\\', '\\']
  else if c = Char.ofNat 8 then ['\\', 'b']
  else if c = Char.ofNat 9 then ['\\', 't']
  else if c = Char.ofNat 10 then ['\\', 'n']
  else if c = Char.ofNat 12 then ['\\', 'f']
  else if c = Char.ofNat 13 then ['\\', 'r']
  else if c.toNat < 32 then
    ['\\', 'u', '0', '0', hexDigit (c.toNat / 16), hexDigit (c.toNat % 16)]
  else [c]

/-- A JSON string literal for `s`, double quotes included. -/
def jsonString (s : String) : String :=
  "\"" ++ String.mk ((s.toList.map jsonEscapeChar).flatten) ++ "\""

/-- One optional JSON member, rendered as JSON.stringify renders it: omitted
entirely when the value is undefined, otherwise a leading comma, the quoted
key, a colon and the quoted value. -/
def jsonOptMember (key : String) : Option String → String
  | none => ""
  | some v => "," ++ jsonString key ++ ":" ++ jsonString v

/-- `JSON.stringify(payload)` for the payload shapes this program signs:
members in insertion order, undefined members omitted, numbers printed in
decimal.  The brace characters are written with hex escapes. -/
def payloadJson (p : Payload) : String :=
  "\x7b" ++ jsonString "t" ++ ":" ++ jsonString p.t ++
  "," ++ jsonString "client_id" ++ ":" ++ jsonString p.client_id ++
  jsonOptMember "code_challenge" p.code_challenge ++
  jsonOptMember "code_challenge_method" p.code_challenge_method ++
  jsonOptMember "redirect_uri" p.redirect_uri ++
  (match p.exp with
   | none => ""
   | some e => "," ++ jsonString "exp" ++ ":" ++ toString e) ++
  "\x7d"

/-- The data string carried inside a signed envelope, as the verifier sees
it after the envelope decode.  `json p` is the JSON.stringify image of a
payload, on which the later `JSON.parse(data)` recovers exactly `p` (the
parse-of-stringify identity).  `malformed s` is a data string on which
`JSON.parse(data)` throws, so the verifier returns null via its catch.
JSON texts that parse to a value that is not a payload record can only be
signed outside this program (the program only ever signs payload records)
and are outside the model. -/
inductive SignedData where
  | json (p : Payload)
  | malformed (s : String)
deriving DecidableEq, Repr

/-- The exact character string the HMAC is computed over. -/
def SignedData.text : SignedData → String
  | .json p => payloadJson p
  | .malformed s => s

/-- `JSON.parse(data)` restricted to payload records; `none` models the
parse throwing (caught, yielding null). -/
def SignedData.parsePayload : SignedData → Option Payload
  | .json p => some p
  | .malformed _ => none

/-- A token string, in decoded form.  The source transports
`base64url(JSON.stringify(.d : data, .h : mac))`; that outer encoding is a
bijection on well-formed envelopes, so the model works with the decoded
envelope directly.  `undecodable s` stands for any token string whose
base64url or envelope JSON decode fails, whose envelope lacks string `d`
or `h` members, or whose MAC recomputation throws — every such failure is
caught in the source and yields null. -/
inductive Token where
  | undecodable (s : String)
  | envelope (d : SignedData) (h : String)
deriving DecidableEq, Repr

/-!
  ## Signer/Verifier (src/api/oauth-utils.js)
-/

/-- The process signing key: SHA-256 of the operator secret
(src/api/oauth-utils.js lines 3 to 6; the secret is
`process.env.FRESHSALES_API_KEY` or the default string
`mcp-oauth-default-key`).  The definitions below take the secret as an
explicit parameter, standing for the module-level constant. -/
def SIGNING_KEY (secret : String) : List Nat :=
  sha256 (utf8Bytes secret)

/-- The secret the source falls back to when the env var is unset; used by
concrete witnesses. -/
def defaultSecret : String := "mcp-oauth-default-key"

/-- `sign(payload)` (src/api/oauth-utils.js lines 8 to 17): serialize the
payload, HMAC the serialization with the signing key, package data and
hex MAC into the envelope. -/
def sign (secret : String) (payload : Payload) : Token :=
  Token.envelope (SignedData.json payload)
    (hmacHex (SIGNING_KEY secret) (utf8Bytes (payloadJson payload)))

/-- The expiry test of `verify` (src/api/oauth-utils.js line 32):
`payload.exp && Date.now() > payload.exp`.  True exactly when `exp` is a
truthy number strictly below the current time. -/
def expFail (exp : Option Nat) (now : Nat) : Bool :=
  match exp with
  | some e => e != 0 && decide (e < now)
  | none => false

/-- `verify(token)` (src/api/oauth-utils.js lines 19 to 39): decode the
envelope (any throw is caught and yields null), recompute the MAC over the
embedded data and compare with the embedded MAC (the source uses
`crypto.timingSafeEqual`, whose length-mismatch throw is also caught and
yields null, so the observable result coincides with equality), parse the
data, and reject when the expiry test fires.  `now` stands for
`Date.now()` at the moment of the call. -/
def verify (secret : String) (token : Token) (now : Nat) : Option Payload :=
  match token with
  | .undecodable _ => none
  | .envelope d h =>
      let expected := hmacHex (SIGNING_KEY secret) (utf8Bytes (SignedData.text d))
      if h = expected then
        match SignedData.parsePayload d with
        | some payload => if expFail payload.exp now then none else some payload
        | none => none
      else none

/-- `createAuthCode` (src/api/oauth-utils.js lines 41 to 55): sign a code
payload expiring five minutes from now.  The only caller supplies all four
strings, `code_challenge_method` already defaulted. -/
def createAuthCode (secret : String) (now : Nat)
    (client_id code_challenge code_challenge_method redirect_uri : String) : Token :=
  sign secret
    ⟨"code", client_id, some code_challenge, some code_challenge_method,
      some redirect_uri, some (now + 5 * 60 * 1000)⟩

/-- `verifyAuthCode` (src/api/oauth-utils.js lines 57 to 60): verify, then
keep only payloads whose discriminator `t` is the string code. -/
def verifyAuthCode (secret : String) (code : Token) (now : Nat) : Option Payload :=
  match verify secret code now with
  | some payload => if payload.t = "code" then some payload else none
  | none => none

/-- `createAccessToken` (src/api/oauth-utils.js lines 62 to 68): sign an
access payload expiring seven days from now. -/
def createAccessToken (secret : String) (now : Nat) (client_id : String) : Token :=
  sign secret ⟨"access", client_id, none, none, none, some (now + 7 * 24 * 60 * 60 * 1000)⟩

/-- `verifyAccessToken` (src/api/oauth-utils.js lines 70 to 73): verify,
then keep only payloads whose discriminator `t` is the string access. -/
def verifyAccessToken (secret : String) (token : Token) (now : Nat) : Option Payload :=
  match verify secret token now with
  | some payload => if payload.t = "access" then some payload else none
  | none => none

/-!
  ## Authorization endpoint (src/unnamed/part_002)
-/

/-- JS string truthiness for an optional string-valued field: present and
not the empty string. -/
def truthyS (o : Option String) : Bool :=
  match o with
  | some s => s != ""
  | none => false

/-- The JS or-default idiom `value || fallback` on an optional string. -/
def orDefaultS (o : Option String) (fallback : String) : String :=
  match o with
  | some s => if s = "" then fallback else s
  | none => fallback

/-- A redirect_uri string together with the verdict of the WHATWG URL
parser on it: `new URL(value)` at src/unnamed/part_002 line 31 either
succeeds (a parseable absolute URL) or throws a TypeError (relative or
garbage values such as foo).  The embedding does not reimplement the
WHATWG parser; like Token.undecodable for the token decode, the
constructor records which way the source-level parse goes for the carried
string. -/
inductive UrlString where
  | parseable (s : String)
  | unparseable (s : String)
deriving DecidableEq, Repr

/-- The raw string value of the query parameter, as destructured from
`req.query` before any URL parsing. -/
def UrlString.text : UrlString → String
  | .parseable s => s
  | .unparseable s => s

/-- The query parameters the authorization handler destructures from
`req.query` (src/unnamed/part_002 lines 7 to 14); absent parameters are
`none`.  The redirect_uri carries the URL-parser verdict alongside its
string value. -/
structure AuthorizeQuery where
  response_type : Option String
  client_id : Option String
  redirect_uri : Option UrlString
  state : Option String
  code_challenge : Option String
  code_challenge_method : Option String
deriving DecidableEq, Repr

/-- The observable response of the authorization handler.  `redirect302`
carries the redirect target, the signed code and the optional echoed
state; the source appends code and state to the parsed redirect URL as
query parameters (serialization and normalization of the parsed URL are
kept structural).  `uncaughtUrlError` is the TypeError thrown by
`new URL(redirect_uri)` escaping the handler: no redirect is sent and the
hosting platform, not the handler, answers the request. -/
inductive AuthorizeResponse where
  | noContent
  | badRequest (error : String)
  | redirect302 (location : String) (code : Token) (state : Option String)
  | uncaughtUrlError (redirect_uri : String)
deriving DecidableEq, Repr

/-- The HTTP status the authorization handler itself sets; none when the
URL TypeError escapes it. -/
def AuthorizeResponse.status : AuthorizeResponse → Option Nat
  | .noContent => some 204
  | .badRequest _ => some 400
  | .redirect302 _ _ _ => some 302
  | .uncaughtUrlError _ => none

/-- The authorization endpoint handler (src/unnamed/part_002 lines 3 to
36): short-circuit OPTIONS with 204; reject a response_type other than
code with 400 unsupported_response_type; reject a missing (or empty, JS
falsy) client_id, redirect_uri or code_challenge with 400 invalid_request;
otherwise sign a code created at `now`, defaulting code_challenge_method
to S256 when falsy, and redirect 302 carrying the code and, when state is
truthy, the state.  When `new URL(redirect_uri)` throws (line 31), the
TypeError escapes: the source signs the code first (line 24), but that
has no observable effect, so the branch order here is immaterial. -/
def authorizeHandler (secret : String) (now : Nat) (method : String)
    (q : AuthorizeQuery) : AuthorizeResponse :=
  if method = "OPTIONS" then .noContent
  else if q.response_type ≠ some "code" then .badRequest "unsupported_response_type"
  else match q.client_id, q.redirect_uri, q.code_challenge with
    | some cid, some ru, some cc =>
        if cid = "" ∨ ru.text = "" ∨ cc = "" then .badRequest "invalid_request"
        else
          match ru with
          | .unparseable s => .uncaughtUrlError s
          | .parseable s =>
              .redirect302 s
                (createAuthCode secret now cid cc (orDefaultS q.code_challenge_method "S256") s)
                (if truthyS q.state then q.state else none)
    | _, _, _ => .badRequest "invalid_request"

/-!
  ## Token endpoint (src/unnamed/part_003)
-/

/-- The body fields the token handler destructures from `req.body`
(src/unnamed/part_003 lines 12 to 13).  The `code` field is a token
string; `none` models a missing or empty (JS falsy) code, `some tok` a
nonempty code string in its decoded form. -/
structure TokenBody where
  grant_type : Option String
  code : Option Token
  redirect_uri : Option String
  client_id : Option String
  code_verifier : Option String
deriving DecidableEq, Repr

/-- The observable response of the token handler. -/
inductive TokenResponse where
  | noContent
  | methodNotAllowed
  | badRequest (error : String) (error_description : Option String)
  | ok (access_token : Token) (token_type : String) (expires_in : Nat)
deriving DecidableEq, Repr

/-- The HTTP status of a token response (`res.json` defaults to 200). -/
def TokenResponse.status : TokenResponse → Nat
  | .noContent => 204
  | .methodNotAllowed => 405
  | .badRequest _ _ => 400
  | .ok _ _ _ => 200

/-- The PKCE transform of the token handler (src/unnamed/part_003 lines 29
to 32): unpadded base64url of the SHA-256 of the verifier. -/
def pkceComputed (code_verifier : String) : String :=
  base64urlNoPad (sha256 (utf8Bytes code_verifier))

/-- The token endpoint handler (src/unnamed/part_003 lines 4 to 48):
short-circuit OPTIONS with 204 and non-POST with 405; a grant_type other
than authorization_code gives 400 unsupported_grant_type; a falsy code,
code_verifier or client_id gives 400 invalid_request; a code that fails
`verifyAuthCode` gives 400 invalid_grant; a PKCE mismatch against the
code payload gives 400 invalid_grant with the description
Code verifier mismatch; otherwise mint an access token for the client_id
presented in the request body and answer 200 with token_type Bearer and
expires_in 604800. -/
def tokenHandler (secret : String) (now : Nat) (method : String)
    (body : TokenBody) : TokenResponse :=
  if method = "OPTIONS" then .noContent
  else if method ≠ "POST" then .methodNotAllowed
  else if body.grant_type ≠ some "authorization_code" then
    .badRequest "unsupported_grant_type" none
  else match body.code, body.code_verifier, body.client_id with
    | some code, some code_verifier, some client_id =>
        if code_verifier = "" ∨ client_id = "" then .badRequest "invalid_request" none
        else match verifyAuthCode secret code now with
          | none => .badRequest "invalid_grant" none
          | some payload =>
              if some (pkceComputed code_verifier) ≠ payload.code_challenge then
                .badRequest "invalid_grant" (some "Code verifier mismatch")
              else .ok (createAccessToken secret now client_id) "Bearer" 604800
    | _, _, _ => .badRequest "invalid_request" none

/-!
  ## MCP resource handler (src/unnamed/part_005)
-/

/-- The observable outcome of the HTTP MCP resource handler.
`forwardedToBackend` means the handler built the MCP server and let the
transport handle the request, whose tool calls reach the CRM backend. -/
inductive McpResponse where
  | missingEnv
  | methodNotAllowed
  | forwardedToBackend
deriving DecidableEq, Repr

/-- The HTTP status the MCP handler itself sets; none once forwarded. -/
def McpResponse.status : McpResponse → Option Nat
  | .missingEnv => some 500
  | .methodNotAllowed => some 405
  | .forwardedToBackend => none

/-- The HTTP MCP resource handler (src/unnamed/part_005 lines 60 to 109):
500 when FRESHSALES_API_KEY or FRESHSALES_BASE_URL is unset, 405 for a
non-POST method, and otherwise the request is handed to the MCP server.
The handler takes the Authorization header as an argument to make its
treatment observable: the source never reads it, never calls
`verifyAccessToken` (which has no caller anywhere in the repository), and
has no 401 path. -/
def mcpHandler (apiKeySet baseUrlSet : Bool) (method : String)
    (_authorizationHeader : Option String) : McpResponse :=
  if !apiKeySet || !baseUrlSet then .missingEnv
  else if method ≠ "POST" then .methodNotAllowed
  else .forwardedToBackend

/-!
  ## Hash implementation test vectors
-/

/-- The FIPS 180-2 test vector for the SHA-256 implementation. -/
theorem sha256_vector_abc :
    hexDigest (sha256 (utf8Bytes "abc"))
      = "ba7816bf8f01cfea414140de5dae2223b00361a396177a9cb410ff61f20015ad" := by
  decide

/-- A standard HMAC-SHA256 test vector for the hmacHex implementation. -/
theorem hmacHex_vector_fox :
    hmacHex (utf8Bytes "key") (utf8Bytes "The quick brown fox jumps over the lazy dog")
      = "f7bc83f430538424b13298e6aa6fb143ef4d59a14946175997479dbc2d1a3cd8" := by
  decide

/-!
  ## Shared lemmas about the Signer/Verifier
-/

/-- Verifying a token this process signed reduces to the expiry test: the
recomputed MAC necessarily equals the embedded one, and the data parses
back to the signed payload. -/
lemma verify_sign (secret : String) (p : Payload) (now : Nat) :
    verify secret (sign secret p) now = if expFail p.exp now then none else some p := by
  simp [verify, sign, SignedData.text, SignedData.parsePayload]

/-- The expiry test stays quiet exactly when any truthy `exp` is at least
the current time. -/
lemma expFail_eq_false_iff (exp : Option Nat) (now : Nat) :
    expFail exp now = false ↔ ∀ e, exp = some e → e ≠ 0 → now ≤ e := by
  cases exp with
  | none => simp [expFail]
  | some e =>
      simp only [expFail, Bool.and_eq_false_iff, bne_eq_false_iff_eq,
        decide_eq_false_iff_not, Option.some.injEq, not_lt]
      constructor
      · rintro (h | h) e' he'
        · omega
        · omega
      · intro h
        by_cases h0 : e = 0
        · exact Or.inl h0
        · exact Or.inr (h e rfl h0)

/-!
  ## Claim C1 — verify: totality, MAC check, expiry
-/

/-- C1, counterexample to the claim as stated.  The claim says verify
returns the parsed payload only if the current time is strictly before the
expiry; the source (src/api/oauth-utils.js line 32) rejects only when
`Date.now() > payload.exp`, so at the exact expiry instant the payload is
still returned even though now is not strictly before expires_at. -/
theorem verify_strict_before_counterexample :
    verify defaultSecret
      (sign defaultSecret ⟨"access", "c1", none, none, none, some 1000⟩) 1000
      = some ⟨"access", "c1", none, none, none, some 1000⟩
    ∧ ¬ (1000 < 1000) := by
  constructor
  · rw [verify_sign]
    simp [expFail]
  · omega

/-- C1, amended: for every token and every time, `verify` (a total
function: decode failures, MAC mismatches and unparseable data all return
invalid, never an exception) returns a payload exactly when the token is
an envelope whose embedded MAC equals the HMAC recomputed over the
embedded data, the data parses to that payload, and the current time does
not exceed the expires_at of the payload whenever that field is present
and truthy.  In particular a correctly signed token whose truthy
expires_at lies strictly in the past is rejected. -/
theorem verify_returns_payload_iff (secret : String) (now : Nat) (t : Token) (p : Payload) :
    verify secret t now = some p ↔
      ∃ d, t = Token.envelope d (hmacHex (SIGNING_KEY secret) (utf8Bytes (SignedData.text d)))
        ∧ SignedData.parsePayload d = some p
        ∧ ∀ e, p.exp = some e → e ≠ 0 → now ≤ e := by
  cases t with
  | undecodable s => simp [verify]
  | envelope d h =>
      constructor
      · intro hv
        by_cases hh : h = hmacHex (SIGNING_KEY secret) (utf8Bytes (SignedData.text d))
        · subst hh
          cases hp : SignedData.parsePayload d with
          | none => simp [verify, hp] at hv
          | some q =>
              by_cases he : expFail q.exp now
              · simp [verify, hp, he] at hv
              · have hq : q = p := by simpa [verify, hp, he] using hv
                subst hq
                exact ⟨d, rfl, hp, (expFail_eq_false_iff q.exp now).mp (by simpa using he)⟩
        · simp [verify, hh] at hv
      · rintro ⟨d', hd', hparse, hexp⟩
        injection hd' with h1 h2
        subst h1
        subst h2
        have hf : expFail p.exp now = false := (expFail_eq_false_iff p.exp now).mpr hexp
        simp [verify, hparse, hf]

/-- C1 witness: the amended characterization applied at a concrete
envelope and time. -/
theorem verify_returns_payload_iff_witness :
    verify defaultSecret
      (Token.envelope (SignedData.json ⟨"access", "w1", none, none, none, some 2000⟩)
        (hmacHex (SIGNING_KEY defaultSecret)
          (utf8Bytes (SignedData.text (SignedData.json ⟨"access", "w1", none, none, none, some 2000⟩)))))
      500
      = some ⟨"access", "w1", none, none, none, some 2000⟩ :=
  (verify_returns_payload_iff defaultSecret 500 _ _).mpr
    ⟨SignedData.json ⟨"access", "w1", none, none, none, some 2000⟩, rfl, rfl,
      by intro e he h0; injection he with h1; omega⟩

/-!
  ## Claim C4 — round-trip
-/

/-- C4: verifying a token freshly signed from any payload returns that
payload at any time strictly before its expires_at. -/
theorem sign_verify_roundtrip (secret : String) (p : Payload) (e now : Nat)
    (hexp : p.exp = some e) (ht : now < e) :
    verify secret (sign secret p) now = some p := by
  rw [verify_sign]
  have hf : expFail p.exp now = false := by
    rw [hexp]
    simp [expFail]
    omega
  rw [hf]
  simp

/-- C4 witness: the round-trip at a concrete code payload and time. -/
theorem sign_verify_roundtrip_witness :
    verify defaultSecret
      (sign defaultSecret ⟨"code", "w4", some "ch", some "S256", some "https://cb", some 700⟩) 3
      = some ⟨"code", "w4", some "ch", some "S256", some "https://cb", some 700⟩ :=
  sign_verify_roundtrip defaultSecret
    ⟨"code", "w4", some "ch", some "S256", some "https://cb", some 700⟩ 700 3 rfl (by omega)

/-!
  ## Claim C5 — kind isolation
-/

/-- C5: a signed payload of kind code is always rejected by the
access-only verifier, and a signed payload of kind access is always
rejected by the code-only verifier — whatever the time, so in particular
for unexpired tokens. -/
theorem kind_isolation (secret : String) (p : Payload) (now : Nat) :
    (p.t = "code" → verifyAccessToken secret (sign secret p) now = none)
    ∧ (p.t = "access" → verifyAuthCode secret (sign secret p) now = none) := by
  constructor
  · intro hk
    unfold verifyAccessToken
    rw [verify_sign]
    by_cases he : expFail p.exp now
    · simp [he]
    · simp only [Bool.not_eq_true] at he
      simp [he, hk]
  · intro hk
    unfold verifyAuthCode
    rw [verify_sign]
    by_cases he : expFail p.exp now
    · simp [he]
    · simp only [Bool.not_eq_true] at he
      simp [he, hk]

/-- C5 witness: kind isolation at concrete unexpired signed tokens. -/
theorem kind_isolation_witness :
    verifyAccessToken defaultSecret
      (sign defaultSecret ⟨"code", "w5", some "ch", some "S256", some "cb", some 99⟩) 10 = none
    ∧ verifyAuthCode defaultSecret
      (sign defaultSecret ⟨"access", "w5", none, none, none, some 99⟩) 10 = none :=
  ⟨(kind_isolation defaultSecret ⟨"code", "w5", some "ch", some "S256", some "cb", some 99⟩ 10).1 rfl,
   (kind_isolation defaultSecret ⟨"access", "w5", none, none, none, some 99⟩ 10).2 rfl⟩

/-!
  ## Claim C10 — falsy exp never expires; boundary instant accepted
-/

/-- C10: a correctly signed token whose payload has no exp member, or
whose exp is 0 (falsy), verifies at every time; and a token with a truthy
exp is still accepted at the exact instant now = exp, because rejection
requires now strictly greater than exp. -/
theorem verify_falsy_exp_and_boundary (secret : String) (p : Payload) (now : Nat) :
    (p.exp = none → verify secret (sign secret p) now = some p)
    ∧ (p.exp = some 0 → verify secret (sign secret p) now = some p)
    ∧ (∀ e, p.exp = some e → verify secret (sign secret p) e = some p) := by
  refine ⟨?_, ?_, ?_⟩
  · intro h
    rw [verify_sign, h]
    simp [expFail]
  · intro h
    rw [verify_sign, h]
    simp [expFail]
  · intro e h
    rw [verify_sign, h]
    simp [expFail]

/-- C10 witness: a token without exp verifies far in the future, a token
with exp 0 verifies at any late time, and a token with exp 1000 is still
accepted at time 1000. -/
theorem verify_falsy_exp_and_boundary_witness :
    verify defaultSecret (sign defaultSecret ⟨"access", "wa", none, none, none, none⟩) 999999999
      = some ⟨"access", "wa", none, none, none, none⟩
    ∧ verify defaultSecret (sign defaultSecret ⟨"access", "wb", none, none, none, some 0⟩) 999999999
      = some ⟨"access", "wb", none, none, none, some 0⟩
    ∧ verify defaultSecret (sign defaultSecret ⟨"access", "wc", none, none, none, some 1000⟩) 1000
      = some ⟨"access", "wc", none, none, none, some 1000⟩ :=
  ⟨(verify_falsy_exp_and_boundary defaultSecret ⟨"access", "wa", none, none, none, none⟩ 999999999).1 rfl,
   (verify_falsy_exp_and_boundary defaultSecret ⟨"access", "wb", none, none, none, some 0⟩ 999999999).2.1 rfl,
   (verify_falsy_exp_and_boundary defaultSecret ⟨"access", "wc", none, none, none, some 1000⟩ 0).2.2 1000 rfl⟩

/-!
  ## Claim C2 — the resource-server gate is absent
-/

/-- C2, the code at the failing input.  With both env vars set, a POST to
the MCP resource handler is forwarded to the backend no matter what the
Authorization header carries — a tampered bearer token included — and the
handler has no 401 response at all: src/unnamed/part_005 never reads the
header and never calls verifyAccessToken (which has no caller anywhere in
the repository). -/
theorem mcp_gate_absent :
    mcpHandler true true "POST" (some "Bearer tampered-or-expired-token")
      = McpResponse.forwardedToBackend
    ∧ ∀ authorizationHeader : Option String,
        mcpHandler true true "POST" authorizationHeader = McpResponse.forwardedToBackend :=
  ⟨rfl, fun _ => rfl⟩

/-!
  ## Claim C7 — token endpoint validation order and taxonomy
-/

/-- C7: on a POST, a grant_type other than authorization_code yields the
400 error unsupported_grant_type; with the grant type right, a falsy code,
code_verifier or client_id yields 400 invalid_request; with all three
present, a code rejected by the code-kind verifier yields 400
invalid_grant — in that order, each hypothesis assuming the earlier checks
passed. -/
theorem token_error_taxonomy (secret : String) (now : Nat) (body : TokenBody) :
    (body.grant_type ≠ some "authorization_code" →
      tokenHandler secret now "POST" body = TokenResponse.badRequest "unsupported_grant_type" none)
    ∧ (body.grant_type = some "authorization_code" →
        (body.code = none ∨ ¬ truthyS body.code_verifier ∨ ¬ truthyS body.client_id) →
        tokenHandler secret now "POST" body = TokenResponse.badRequest "invalid_request" none)
    ∧ (∀ code v cid, body.grant_type = some "authorization_code" →
        body.code = some code → body.code_verifier = some v → v ≠ "" →
        body.client_id = some cid → cid ≠ "" →
        verifyAuthCode secret code now = none →
        tokenHandler secret now "POST" body = TokenResponse.badRequest "invalid_grant" none)
    ∧ (∀ e d, (TokenResponse.badRequest e d).status = 400) := by
  refine ⟨?_, ?_, ?_, fun e d => rfl⟩
  · intro hg
    simp [tokenHandler, hg]
  · intro hg hmiss
    cases hc : body.code with
    | none => simp [tokenHandler, hg, hc]
    | some code =>
        cases hv : body.code_verifier with
        | none => simp [tokenHandler, hg, hc, hv]
        | some v =>
            cases hcid : body.client_id with
            | none => simp [tokenHandler, hg, hc, hcid, hv]
            | some cid =>
                rcases hmiss with h | h | h
                · rw [hc] at h
                  exact absurd h (by simp)
                · rw [hv] at h
                  simp only [truthyS, bne_eq_false_iff_eq, not_not] at h
                  rw [Bool.not_eq_true, bne_eq_false_iff_eq] at h
                  simp [tokenHandler, hg, hc, hv, hcid, h]
                · rw [hcid] at h
                  rw [Bool.not_eq_true] at h
                  simp only [truthyS, bne_eq_false_iff_eq] at h
                  simp [tokenHandler, hg, hc, hv, hcid, h]
  · intro code v cid hg hc hv hvne hcid hcidne hbad
    simp [tokenHandler, hg, hc, hv, hcid, hvne, hcidne, hbad]

/-- C7 witness: the three error paths at concrete POST bodies — a
client_credentials grant, a body missing the code, and a garbage
(undecodable) code. -/
theorem token_error_taxonomy_witness :
    tokenHandler defaultSecret 7 "POST" ⟨some "client_credentials", none, none, none, none⟩
      = TokenResponse.badRequest "unsupported_grant_type" none
    ∧ tokenHandler defaultSecret 7 "POST"
        ⟨some "authorization_code", none, none, some "c7", some "v7"⟩
      = TokenResponse.badRequest "invalid_request" none
    ∧ tokenHandler defaultSecret 7 "POST"
        ⟨some "authorization_code", some (Token.undecodable "garbage"), none, some "c7", some "v7"⟩
      = TokenResponse.badRequest "invalid_grant" none :=
  ⟨(token_error_taxonomy defaultSecret 7 ⟨some "client_credentials", none, none, none, none⟩).1
     (by simp),
   (token_error_taxonomy defaultSecret 7
     ⟨some "authorization_code", none, none, some "c7", some "v7"⟩).2.1 rfl (Or.inl rfl),
   (token_error_taxonomy defaultSecret 7
     ⟨some "authorization_code", some (Token.undecodable "garbage"), none, some "c7", some "v7"⟩).2.2.1
     (Token.undecodable "garbage") "v7" "c7" rfl rfl rfl (by simp) rfl (by simp) rfl⟩

/-!
  ## Claim C9 — authorization endpoint issues a five-minute code
-/

/-- C9, counterexample to the claim as stated.  The claim promises a 302
redirect for every request with non-missing client_id, redirect_uri and
code_challenge; but for a redirect_uri that is not a parseable absolute
URL — here the bare string foo — `new URL(redirect_uri)` at
src/unnamed/part_002 line 31 throws a TypeError that escapes the handler,
so no 302 (indeed no handler response at all) is produced. -/
theorem authorize_unparseable_redirect_counterexample :
    authorizeHandler defaultSecret 50 "GET"
      ⟨some "code", some "cx9", some (UrlString.unparseable "foo"), none,
        some "E9Melhoa2OwvFrEMTJguCHaoeK1t8URWbuGJSstw-cM", none⟩
      = AuthorizeResponse.uncaughtUrlError "foo"
    ∧ (authorizeHandler defaultSecret 50 "GET"
        ⟨some "code", some "cx9", some (UrlString.unparseable "foo"), none,
          some "E9Melhoa2OwvFrEMTJguCHaoeK1t8URWbuGJSstw-cM", none⟩).status ≠ some 302 := by
  refine ⟨rfl, ?_⟩
  intro h
  simp [authorizeHandler, UrlString.text, AuthorizeResponse.status] at h

/-- C9, amended: a non-OPTIONS request with response_type code and truthy
client_id, redirect_uri and code_challenge, where the redirect_uri is a
URL the WHATWG parser accepts, gets a 302 redirect to the redirect_uri
carrying a code signed over the payload built at `now` — kind code,
expires_at now plus five minutes (300000 ms), challenge method defaulted
to S256 when the parameter is absent — together with the state, echoed
exactly when it was supplied truthy.  When the redirect_uri does not
parse, the new URL call throws and no redirect is issued. -/
theorem authorize_issues_code (secret : String) (now : Nat) (method : String)
    (q : AuthorizeQuery) (cid ru cc : String)
    (hm : method ≠ "OPTIONS") (hrt : q.response_type = some "code")
    (hcid : q.client_id = some cid) (hcid1 : cid ≠ "")
    (hru : q.redirect_uri = some (UrlString.parseable ru)) (hru1 : ru ≠ "")
    (hcc : q.code_challenge = some cc) (hcc1 : cc ≠ "") :
    authorizeHandler secret now method q
      = AuthorizeResponse.redirect302 ru
          (createAuthCode secret now cid cc (orDefaultS q.code_challenge_method "S256") ru)
          (if truthyS q.state then q.state else none)
    ∧ (authorizeHandler secret now method q).status = some 302
    ∧ createAuthCode secret now cid cc (orDefaultS q.code_challenge_method "S256") ru
        = sign secret ⟨"code", cid, some cc, some (orDefaultS q.code_challenge_method "S256"),
            some ru, some (now + 300000)⟩
    ∧ (q.code_challenge_method = none → orDefaultS q.code_challenge_method "S256" = "S256") := by
  have hmain : authorizeHandler secret now method q
      = AuthorizeResponse.redirect302 ru
          (createAuthCode secret now cid cc (orDefaultS q.code_challenge_method "S256") ru)
          (if truthyS q.state then q.state else none) := by
    simp [authorizeHandler, hm, hrt, hcid, hru, hcc, hcid1, hru1, hcc1, UrlString.text]
  refine ⟨hmain, ?_, rfl, ?_⟩
  · rw [hmain]
    rfl
  · intro hnone
    rw [hnone]
    rfl

/-- C9 witness: a concrete GET with a parseable redirect_uri, an absent
challenge method and a truthy state — the code is signed over a payload
expiring at now + 300000 with method S256, and the state is echoed. -/
theorem authorize_issues_code_witness :
    authorizeHandler defaultSecret 50 "GET"
      ⟨some "code", some "w9", some (UrlString.parseable "https://app.example/cb"), some "xyz",
        some "E9Melhoa2OwvFrEMTJguCHaoeK1t8URWbuGJSstw-cM", none⟩
      = AuthorizeResponse.redirect302 "https://app.example/cb"
          (createAuthCode defaultSecret 50 "w9" "E9Melhoa2OwvFrEMTJguCHaoeK1t8URWbuGJSstw-cM"
            "S256" "https://app.example/cb")
          (some "xyz")
    ∧ createAuthCode defaultSecret 50 "w9" "E9Melhoa2OwvFrEMTJguCHaoeK1t8URWbuGJSstw-cM"
        "S256" "https://app.example/cb"
      = sign defaultSecret ⟨"code", "w9", some "E9Melhoa2OwvFrEMTJguCHaoeK1t8URWbuGJSstw-cM",
          some "S256", some "https://app.example/cb", some 300050⟩ := by
  have h := authorize_issues_code defaultSecret 50 "GET"
    ⟨some "code", some "w9", some (UrlString.parseable "https://app.example/cb"), some "xyz",
      some "E9Melhoa2OwvFrEMTJguCHaoeK1t8URWbuGJSstw-cM", none⟩
    "w9" "https://app.example/cb" "E9Melhoa2OwvFrEMTJguCHaoeK1t8URWbuGJSstw-cM"
    (by simp) rfl rfl (by simp) rfl (by simp) rfl (by simp)
  exact ⟨h.1, h.2.2.1⟩

/-!
  ## Shared lemmas about the token endpoint
-/

/-- Once a POST body with the right grant type and truthy fields carries a
code the code-kind verifier accepts, the token handler is decided by the
PKCE comparison alone. -/
lemma tokenHandler_after_verify (secret : String) (now : Nat) (body : TokenBody)
    (code : Token) (v cid : String) (payload : Payload)
    (hg : body.grant_type = some "authorization_code")
    (hc : body.code = some code)
    (hv : body.code_verifier = some v) (hv1 : v ≠ "")
    (hcid : body.client_id = some cid) (hcid1 : cid ≠ "")
    (hver : verifyAuthCode secret code now = some payload) :
    tokenHandler secret now "POST" body =
      if some (pkceComputed v) ≠ payload.code_challenge then
        TokenResponse.badRequest "invalid_grant" (some "Code verifier mismatch")
      else TokenResponse.ok (createAccessToken secret now cid) "Bearer" 604800 := by
  simp [tokenHandler, hg, hc, hv, hcid, hv1, hcid1, hver]

/-- A code freshly minted by createAuthCode passes the code-kind verifier
at any time up to its five-minute deadline, yielding exactly the payload
it was built from. -/
lemma verifyAuthCode_createAuthCode (secret : String) (t0 : Nat)
    (cid cc mth ru : String) (now : Nat) (h : now ≤ t0 + 300000) :
    verifyAuthCode secret (createAuthCode secret t0 cid cc mth ru) now
      = some ⟨"code", cid, some cc, some mth, some ru, some (t0 + 300000)⟩ := by
  unfold verifyAuthCode createAuthCode
  rw [verify_sign]
  have hf : expFail (some (t0 + 5 * 60 * 1000)) now = false := by
    simp [expFail]
    omega
  simp only [hf]
  simp

/-!
  ## Claim C6 — PKCE enforcement
-/

/-- C6: once the presented code is valid (its payload carries a
challenge), the exchange fails with 400 invalid_grant and the description
Code verifier mismatch exactly when the unpadded base64url of the SHA-256
of the code_verifier differs from the stored code_challenge; and the
RFC 7636 literal pair checks out: the verifier
dBjftJeZ4CVP-mB92K27uhbUJU1p1r_wW1gFWFOEjXk hashes precisely to the
challenge E9Melhoa2OwvFrEMTJguCHaoeK1t8URWbuGJSstw-cM, so that challenge
accepts this verifier and rejects every verifier whose SHA-256 transform
differs. -/
theorem pkce_enforcement (secret : String) (now : Nat) (body : TokenBody)
    (code : Token) (v cid chal : String) (payload : Payload)
    (hg : body.grant_type = some "authorization_code")
    (hc : body.code = some code)
    (hv : body.code_verifier = some v) (hv1 : v ≠ "")
    (hcid : body.client_id = some cid) (hcid1 : cid ≠ "")
    (hver : verifyAuthCode secret code now = some payload)
    (hchal : payload.code_challenge = some chal) :
    (tokenHandler secret now "POST" body
        = TokenResponse.badRequest "invalid_grant" (some "Code verifier mismatch")
      ↔ pkceComputed v ≠ chal)
    ∧ pkceComputed "dBjftJeZ4CVP-mB92K27uhbUJU1p1r_wW1gFWFOEjXk"
        = "E9Melhoa2OwvFrEMTJguCHaoeK1t8URWbuGJSstw-cM" := by
  refine ⟨?_, by decide⟩
  rw [tokenHandler_after_verify secret now body code v cid payload hg hc hv hv1 hcid hcid1 hver,
    hchal]
  by_cases hpk : pkceComputed v = chal
  · simp [hpk]
  · simp [hpk]

/-- C6 witness: a valid code carrying the RFC 7636 challenge rejects a
wrong verifier with invalid_grant and the mismatch description. -/
theorem pkce_enforcement_witness :
    tokenHandler defaultSecret 60000 "POST"
      ⟨some "authorization_code",
        some (createAuthCode defaultSecret 0 "w6" "E9Melhoa2OwvFrEMTJguCHaoeK1t8URWbuGJSstw-cM"
          "S256" "https://app.example/cb"),
        none, some "w6", some "wrong-verifier"⟩
      = TokenResponse.badRequest "invalid_grant" (some "Code verifier mismatch") :=
  ((pkce_enforcement defaultSecret 60000
      ⟨some "authorization_code",
        some (createAuthCode defaultSecret 0 "w6" "E9Melhoa2OwvFrEMTJguCHaoeK1t8URWbuGJSstw-cM"
          "S256" "https://app.example/cb"),
        none, some "w6", some "wrong-verifier"⟩
      (createAuthCode defaultSecret 0 "w6" "E9Melhoa2OwvFrEMTJguCHaoeK1t8URWbuGJSstw-cM"
        "S256" "https://app.example/cb")
      "wrong-verifier" "w6" "E9Melhoa2OwvFrEMTJguCHaoeK1t8URWbuGJSstw-cM"
      ⟨"code", "w6", some "E9Melhoa2OwvFrEMTJguCHaoeK1t8URWbuGJSstw-cM", some "S256",
        some "https://app.example/cb", some 300000⟩
      rfl rfl rfl (by simp) rfl (by simp)
      (verifyAuthCode_createAuthCode defaultSecret 0 "w6"
        "E9Melhoa2OwvFrEMTJguCHaoeK1t8URWbuGJSstw-cM" "S256" "https://app.example/cb" 60000
        (by omega))
      rfl).1.mpr (by decide))

/-!
  ## Claim C3 — successful exchange: which client_id gets minted
-/

/-- C3, counterexample to the claim as stated.  The claim binds the minted
access payload to the client_id embedded in the verified code payload; the
source (src/unnamed/part_003 line 41) instead calls
createAccessToken with the client_id destructured from the request body
and never compares the two.  A code issued to alice, exchanged with the
correct verifier but client_id mallory, succeeds and mints an access
token embedding mallory. -/
theorem token_client_binding_counterexample :
    tokenHandler defaultSecret 1000 "POST"
      ⟨some "authorization_code",
        some (createAuthCode defaultSecret 0 "alice" "E9Melhoa2OwvFrEMTJguCHaoeK1t8URWbuGJSstw-cM"
          "S256" "https://app.example/cb"),
        none, some "mallory", some "dBjftJeZ4CVP-mB92K27uhbUJU1p1r_wW1gFWFOEjXk"⟩
      = TokenResponse.ok (createAccessToken defaultSecret 1000 "mallory") "Bearer" 604800
    ∧ verify defaultSecret (createAccessToken defaultSecret 1000 "mallory") 1000
        = some ⟨"access", "mallory", none, none, none, some 604801000⟩
    ∧ "mallory" ≠ "alice" := by
  refine ⟨?_, ?_, by decide⟩
  · rw [tokenHandler_after_verify defaultSecret 1000 _
      (createAuthCode defaultSecret 0 "alice" "E9Melhoa2OwvFrEMTJguCHaoeK1t8URWbuGJSstw-cM"
        "S256" "https://app.example/cb")
      "dBjftJeZ4CVP-mB92K27uhbUJU1p1r_wW1gFWFOEjXk" "mallory"
      ⟨"code", "alice", some "E9Melhoa2OwvFrEMTJguCHaoeK1t8URWbuGJSstw-cM", some "S256",
        some "https://app.example/cb", some 300000⟩
      rfl rfl rfl (by simp) rfl (by simp)
      (verifyAuthCode_createAuthCode defaultSecret 0 "alice"
        "E9Melhoa2OwvFrEMTJguCHaoeK1t8URWbuGJSstw-cM" "S256" "https://app.example/cb" 1000
        (by omega))]
    simp [show pkceComputed "dBjftJeZ4CVP-mB92K27uhbUJU1p1r_wW1gFWFOEjXk"
      = "E9Melhoa2OwvFrEMTJguCHaoeK1t8URWbuGJSstw-cM" from by decide]
  · rw [show createAccessToken defaultSecret 1000 "mallory"
      = sign defaultSecret ⟨"access", "mallory", none, none, none, some 604801000⟩ from rfl]
    rw [verify_sign]
    simp [expFail]

/-- C3, amended: a successful exchange mints an access payload bound to
the client_id presented in the token request (the handler never compares
it with the client_id embedded in the code payload), with expires_at
seven days (604800000 ms) past now, answered as HTTP 200 JSON with
token_type Bearer and expires_in 604800; so parallel flows whose token
requests present distinct client_ids each receive a token embedding
exactly the client_id that flow presented. -/
theorem token_success_binds_request_client (secret : String) (now : Nat) (body : TokenBody)
    (code : Token) (v cid chal : String) (payload : Payload)
    (hg : body.grant_type = some "authorization_code")
    (hc : body.code = some code)
    (hv : body.code_verifier = some v) (hv1 : v ≠ "")
    (hcid : body.client_id = some cid) (hcid1 : cid ≠ "")
    (hver : verifyAuthCode secret code now = some payload)
    (hchal : payload.code_challenge = some chal)
    (hpk : pkceComputed v = chal) :
    tokenHandler secret now "POST" body
      = TokenResponse.ok (createAccessToken secret now cid) "Bearer" 604800
    ∧ verify secret (createAccessToken secret now cid) now
        = some ⟨"access", cid, none, none, none, some (now + 604800000)⟩
    ∧ (tokenHandler secret now "POST" body).status = 200 := by
  have hmain : tokenHandler secret now "POST" body
      = TokenResponse.ok (createAccessToken secret now cid) "Bearer" 604800 := by
    rw [tokenHandler_after_verify secret now body code v cid payload hg hc hv hv1 hcid hcid1 hver]
    simp [hchal, hpk]
  refine ⟨hmain, ?_, by rw [hmain]; rfl⟩
  rw [show createAccessToken secret now cid
    = sign secret ⟨"access", cid, none, none, none, some (now + 604800000)⟩ from rfl]
  rw [verify_sign]
  have hf : expFail (some (now + 604800000)) now = false := by
    simp [expFail]
  rw [show (⟨"access", cid, none, none, none, some (now + 604800000)⟩ : Payload).exp
    = some (now + 604800000) from rfl, hf]
  simp

/-- C3 witness: an honest flow — same client_id at both endpoints, RFC
7636 verifier — mints a 200 Bearer response whose payload embeds that
client_id with a seven-day expiry. -/
theorem token_success_binds_request_client_witness :
    tokenHandler defaultSecret 2000 "POST"
      ⟨some "authorization_code",
        some (createAuthCode defaultSecret 0 "w3" "E9Melhoa2OwvFrEMTJguCHaoeK1t8URWbuGJSstw-cM"
          "S256" "https://app.example/cb"),
        none, some "w3", some "dBjftJeZ4CVP-mB92K27uhbUJU1p1r_wW1gFWFOEjXk"⟩
      = TokenResponse.ok (createAccessToken defaultSecret 2000 "w3") "Bearer" 604800
    ∧ verify defaultSecret (createAccessToken defaultSecret 2000 "w3") 2000
        = some ⟨"access", "w3", none, none, none, some 604802000⟩ := by
  have h := token_success_binds_request_client defaultSecret 2000
    ⟨some "authorization_code",
      some (createAuthCode defaultSecret 0 "w3" "E9Melhoa2OwvFrEMTJguCHaoeK1t8URWbuGJSstw-cM"
        "S256" "https://app.example/cb"),
      none, some "w3", some "dBjftJeZ4CVP-mB92K27uhbUJU1p1r_wW1gFWFOEjXk"⟩
    (createAuthCode defaultSecret 0 "w3" "E9Melhoa2OwvFrEMTJguCHaoeK1t8URWbuGJSstw-cM"
      "S256" "https://app.example/cb")
    "dBjftJeZ4CVP-mB92K27uhbUJU1p1r_wW1gFWFOEjXk" "w3"
    "E9Melhoa2OwvFrEMTJguCHaoeK1t8URWbuGJSstw-cM"
    ⟨"code", "w3", some "E9Melhoa2OwvFrEMTJguCHaoeK1t8URWbuGJSstw-cM", some "S256",
      some "https://app.example/cb", some 300000⟩
    rfl rfl rfl (by simp) rfl (by simp)
    (verifyAuthCode_createAuthCode defaultSecret 0 "w3"
      "E9Melhoa2OwvFrEMTJguCHaoeK1t8URWbuGJSstw-cM" "S256" "https://app.example/cb" 2000
      (by omega))
    rfl (by decide)
  exact ⟨h.1, h.2.1⟩

/-!
  ## Claim C8 — no replay protection within the validity window
-/

/-- C8: the token handler is a pure function of the secret, the clock,
the method and the body — the embedding has no store parameter because
the source keeps no server-side state — so a second exchange of the very
same unexpired code with a matching verifier succeeds exactly like the
first, each time minting its own access token. -/
theorem code_replay_within_window (secret : String) (t0 : Nat)
    (cid chal mth ru cid2 v : String) (now1 now2 : Nat)
    (hcid2 : cid2 ≠ "") (hv1 : v ≠ "") (hpk : pkceComputed v = chal)
    (h1 : now1 ≤ t0 + 300000) (h2 : now2 ≤ t0 + 300000) :
    tokenHandler secret now1 "POST"
      ⟨some "authorization_code", some (createAuthCode secret t0 cid chal mth ru),
        none, some cid2, some v⟩
      = TokenResponse.ok (createAccessToken secret now1 cid2) "Bearer" 604800
    ∧ tokenHandler secret now2 "POST"
      ⟨some "authorization_code", some (createAuthCode secret t0 cid chal mth ru),
        none, some cid2, some v⟩
      = TokenResponse.ok (createAccessToken secret now2 cid2) "Bearer" 604800 := by
  constructor
  · rw [tokenHandler_after_verify secret now1 _ (createAuthCode secret t0 cid chal mth ru)
      v cid2 ⟨"code", cid, some chal, some mth, some ru, some (t0 + 300000)⟩
      rfl rfl rfl hv1 rfl hcid2
      (verifyAuthCode_createAuthCode secret t0 cid chal mth ru now1 h1)]
    simp [hpk]
  · rw [tokenHandler_after_verify secret now2 _ (createAuthCode secret t0 cid chal mth ru)
      v cid2 ⟨"code", cid, some chal, some mth, some ru, some (t0 + 300000)⟩
      rfl rfl rfl hv1 rfl hcid2
      (verifyAuthCode_createAuthCode secret t0 cid chal mth ru now2 h2)]
    simp [hpk]

/-- C8 witness: the same concrete five-minute code exchanged twice, at
100 ms and at 200 ms, both succeeding. -/
theorem code_replay_within_window_witness :
    tokenHandler defaultSecret 100 "POST"
      ⟨some "authorization_code",
        some (createAuthCode defaultSecret 0 "w8" "E9Melhoa2OwvFrEMTJguCHaoeK1t8URWbuGJSstw-cM"
          "S256" "https://app.example/cb"),
        none, some "w8", some "dBjftJeZ4CVP-mB92K27uhbUJU1p1r_wW1gFWFOEjXk"⟩
      = TokenResponse.ok (createAccessToken defaultSecret 100 "w8") "Bearer" 604800
    ∧ tokenHandler defaultSecret 200 "POST"
      ⟨some "authorization_code",
        some (createAuthCode defaultSecret 0 "w8" "E9Melhoa2OwvFrEMTJguCHaoeK1t8URWbuGJSstw-cM"
          "S256" "https://app.example/cb"),
        none, some "w8", some "dBjftJeZ4CVP-mB92K27uhbUJU1p1r_wW1gFWFOEjXk"⟩
      = TokenResponse.ok (createAccessToken defaultSecret 200 "w8") "Bearer" 604800 :=
  code_replay_within_window defaultSecret 0 "w8"
    "E9Melhoa2OwvFrEMTJguCHaoeK1t8URWbuGJSstw-cM" "S256" "https://app.example/cb"
    "w8" "dBjftJeZ4CVP-mB92K27uhbUJU1p1r_wW1gFWFOEjXk" 100 200
    (by simp) (by simp) (by decide) (by omega) (by omega)

end FreshsalesMcp

